import Mathlib

/-
Verification development for the request-routing and authentication-orchestration
engine of caddy-auth-portal (plugin.go, AuthPortal.ServeHTTP).

Modelling conventions:
  * Go strings are Lean `String`s; `strings.HasPrefix`, `strings.TrimPrefix` and
    `strings.Split` are re-implemented on the character list (`hasPfx`, `trimPfx`,
    `splitSeg`) with the same semantics for the ASCII inputs involved.
  * The per-request `opts` bag is the `Opts` record, restricted to the keys the
    orchestrator itself reads or writes as data (`authenticated`,
    `auth_backend_found`, `auth_credentials_found`, `flow`, `status_code`,
    `message`, `user_claims`, `authorized`); keys holding collaborator references
    (logger, ui, request, token provider) carry no data-flow and are omitted.
  * A backend's `Authenticate` call is modelled by the pair it returns for this
    request (`err`, `resp`); each backend is invoked at most once per request, so
    a fixed pair per backend is fully general.  `resp` is the Go result map:
    `code`/`redirect_url`/`claims` are `Option`s, `none` meaning the key is
    absent (or the map is nil), in which case the corresponding unchecked Go
    type assertion `resp["code"].(int)` / `resp["claims"].(*jwt.UserClaims)`
    panics.  A Go runtime panic is modelled as the result `none` of `serveHTTP`.
  * Token validation (`m.TokenValidator.Authorize`) is an input: `TokenResult.ok`
    when `authOK` is true, otherwise `TokenResult.fail e` with `e` the optional
    error message string.
  * The session cache (pkg/cache, not part of the repository core under
    verification) is modelled from the spec as an overwrite-on-add association
    list; `serveHTTP` records the `sessionCache.Add` calls it performs in
    `Outcome.cacheWrites` in execution order.
-/

namespace CaddyAuthPortal

/-- Claims attached to an authenticated subject: the fields of *jwt.UserClaims
that the orchestrator reads or writes (ID, Issuer, Address). -/
structure UserClaims where
  ID : String
  Issuer : String
  Address : String
  deriving Repr, DecidableEq

/-- The result map a backend's Authenticate returns: `code`, `redirect_url` and
`claims` entries, each `none` when absent from the map (or when the map is nil). -/
structure BackendResp where
  code : Option Int
  redirect_url : Option String
  claims : Option UserClaims
  deriving Repr, DecidableEq

/-- One configured backend: its identity (GetName/GetRealm/GetMethod) and the
(result, error) pair its Authenticate call returns for the request at hand. -/
structure Backend where
  name : String
  realm : String
  method : String
  err : Option String
  resp : BackendResp
  deriving Repr, DecidableEq

/-- Result of `m.TokenValidator.Authorize(r, nil)`: `ok claims` when authOK is
true, `fail e` otherwise with the optional error message. -/
inductive TokenResult where
  | ok (claims : UserClaims)
  | fail (err : Option String)
  deriving Repr, DecidableEq

/-- Result of `utils.ParseCredentials(r)`: a parse error, a nil credentials map,
or a credentials map whose `realm` entry is the given string ("" when absent). -/
inductive CredResult where
  | parseErr (e : String)
  | noCreds
  | creds (realm : String)
  deriving Repr, DecidableEq

/-- The inbound request data the orchestrator consumes. -/
structure Request where
  httpMethod : String
  rawPath : String
  redirectParam : Option String
  currentURL : String
  sourceAddr : String
  creds : CredResult
  deriving Repr, DecidableEq

/-- User-registration configuration (Disabled flag and Dropbox destination). -/
structure Registration where
  disabled : Bool
  dropbox : String
  deriving Repr, DecidableEq

/-- The portal instance configuration consumed by ServeHTTP. -/
structure AuthPortal where
  authURLPath : String
  backends : List Backend
  enableSourceIPTracking : Bool
  registration : Registration
  cookieAttrs : String
  deriving Repr, DecidableEq

/-- The per-request opts bag, restricted to the data-bearing keys. -/
structure Opts where
  authenticated : Bool
  auth_backend_found : Bool
  auth_credentials_found : Bool
  flow : Option String
  status_code : Option Int
  message : Option String
  user_claims : Option UserClaims
  authorized : Option Bool
  deriving Repr, DecidableEq

/-- Value stored by `sessionCache.Add`: the claims bundle plus the
originating backend's name/realm/method. -/
structure CacheEntry where
  claims : UserClaims
  backend_name : String
  backend_realm : String
  backend_method : String
  deriving Repr, DecidableEq

/-- The terminal action ServeHTTP takes for a request. -/
inductive Action where
  | loginRedirect
  | redirect302
  | redirect308
  | serveGeneric
  | serveLogin
  | serveRegister
  | serveLogoff
  | serveAssets
  | serveWhoami
  | serveSettings
  | servePortal
  deriving Repr, DecidableEq

/-- Everything observable about one ServeHTTP run: the dispatched action, the
final opts bag, which backends were invoked (indices into `m.backends`, in
order), the session-cache writes performed (in order), the redirect cookie
header value if set, and the Location target if a redirect was issued. -/
structure Outcome where
  action : Action
  opts : Opts
  invoked : List Nat
  cacheWrites : List (String × CacheEntry)
  cookie : Option String
  location : Option String
  deriving Repr, DecidableEq

/-- Character-list core of strings.HasPrefix. -/
def listIsPfx : List Char → List Char → Bool
  | [], _ => true
  | _ :: _, [] => false
  | a :: as, b :: bs => a == b && listIsPfx as bs

/-- strings.HasPrefix s pre. -/
def hasPfx (s pre : String) : Bool := listIsPfx pre.data s.data

/-- strings.TrimPrefix s pre. -/
def trimPfx (s pre : String) : String :=
  if listIsPfx pre.data s.data then ⟨s.data.drop pre.data.length⟩ else s

/-- Character-list core of strings.Split with separator "/". -/
def splitChar (sep : Char) : List Char → List (List Char)
  | [] => [[]]
  | c :: cs =>
    let r := splitChar sep cs
    if c == sep then [] :: r
    else
      match r with
      | [] => [[c]]
      | h :: t => (c :: h) :: t

/-- strings.Split urlPath "/". -/
def splitSeg (s : String) : List String :=
  (splitChar '/' s.data).map (fun cs => ⟨cs⟩)

/-- The fixed redirect-cookie name constant redirectToToken. -/
def redirectToToken : String := "AUTH_PORTAL_REDIRECT_URL"

/-- Whether urlPath begins with one of the delegated-backend prefixes
(the strings.HasPrefix disjunction at lines 158 and 203 of plugin.go). -/
def delegatedPfx (p : String) : Bool :=
  hasPfx p "saml" || hasPfx p "x509" || hasPfx p "oauth2"

/-- The ordered flow classification implemented by the routing switch. -/
inductive Flow where
  | register
  | recovery
  | logout
  | assets
  | whoami
  | settings
  | portalPage
  | delegated
  | login
  | notFound
  deriving Repr, DecidableEq

/-- The routing switch's case selection, in source order: the first matching
prefix rule wins. -/
def classify (p : String) : Flow :=
  if hasPfx p "register" then .register
  else if hasPfx p "recover" || hasPfx p "forgot" then .recovery
  else if hasPfx p "logout" || hasPfx p "logoff" then .logout
  else if hasPfx p "assets" then .assets
  else if hasPfx p "whoami" then .whoami
  else if hasPfx p "settings" then .settings
  else if hasPfx p "portal" then .portalPage
  else if delegatedPfx p then .delegated
  else if hasPfx p "login" || p = "" then .login
  else .notFound

/-- The urlPath computation: TrimPrefix on the configured mount path, then
TrimPrefix on "/". -/
def urlPathOf (m : AuthPortal) (r : Request) : String :=
  trimPfx (trimPfx r.rawPath m.authURLPath) "/"

/-- The claims finalization shared by both success paths: stamp Issuer with the
current URL, stamp Address when source-IP tracking is enabled, and default an
empty ID from the request correlation id. -/
def stampClaims (c : UserClaims) (curURL srcAddr reqID : String) (track : Bool) : UserClaims :=
  let c1 : UserClaims := { c with Issuer := curURL }
  let c2 : UserClaims := if track then { c1 with Address := srcAddr } else c1
  if c2.ID = "" then { c2 with ID := reqID } else c2

/-- The initial opts bag built at the top of ServeHTTP. -/
def opts0 : Opts :=
  { authenticated := false, auth_backend_found := false, auth_credentials_found := false,
    flow := none, status_code := none, message := none, user_claims := none,
    authorized := none }

/-- Outcome with no backend invocation, no cache write and no redirect. -/
def mkOut (a : Action) (opts : Opts) (cookie : Option String) : Outcome :=
  { action := a, opts := opts, invoked := [], cacheWrites := [],
    cookie := cookie, location := none }

/-- The delegated-backend loop (plugin.go lines 214-280): scan the configured
backends for the first (method, realm) match and act on its Authenticate
result; fall through to backend_not_found.  `none` models a Go panic: the
unchecked `resp["code"].(int)` assertion when the error-result map lacks an
integer `code`, and — in the claims-missing branch — the `err.Error()` call in
the warning log, which always faults because `err` is nil there. -/
def delegLoop (m : AuthPortal) (r : Request) (reqID meth realm : String)
    (cookie : Option String) (opts : Opts) :
    List (Nat × Backend) → List Nat → Option Outcome
  | [], invoked =>
    let opts2 : Opts :=
      { opts with
        status_code := some 400, flow := some "backend_not_found",
        authenticated := false }
    some { action := .serveGeneric, opts := opts2,
           invoked := invoked, cacheWrites := [], cookie := cookie, location := none }
  | (i, b) :: rest, invoked =>
    if b.realm ≠ realm then delegLoop m r reqID meth realm cookie opts rest invoked
    else if b.method ≠ meth then delegLoop m r reqID meth realm cookie opts rest invoked
    else
      match b.err with
      | some _ =>
        match b.resp.code with
        | none => none
        | some c =>
          let opts2 : Opts :=
            { opts with
              flow := some "auth_failed", authenticated := false,
              message := some "Authentication failed", status_code := some c }
          some { action := .serveGeneric, opts := opts2,
                 invoked := invoked ++ [i], cacheWrites := [], cookie := cookie,
                 location := none }
      | none =>
        match b.resp.redirect_url with
        | some v =>
          some { action := .redirect308, opts := opts, invoked := invoked ++ [i],
                 cacheWrites := [], cookie := cookie, location := some v }
        | none =>
          match b.resp.claims with
          | none => none
          | some c0 =>
            let c := stampClaims c0 r.currentURL r.sourceAddr reqID m.enableSourceIPTracking
            let opts2 : Opts :=
              { opts with
                authenticated := true, user_claims := some c,
                status_code := some 200 }
            some { action := .serveLogin, opts := opts2,
                   invoked := invoked ++ [i],
                   cacheWrites := [(c.ID, ⟨c, b.name, b.realm, b.method⟩)],
                   cookie := cookie, location := none }

/-- The interactive-login backend loop (plugin.go lines 295-331): every backend
whose realm equals the credentials' realm is tried, with no short-circuit;
the accumulated opts, invocation list and cache writes are threaded through.
`none` models a Go panic: `resp["code"].(int)` on an error result without an
integer code, and `resp["claims"].(*jwt.UserClaims)` on a success result
without a claims entry (this branch has no existence check). -/
def loginLoop (m : AuthPortal) (r : Request) (reqID realm : String) :
    List (Nat × Backend) → Opts → List Nat → List (String × CacheEntry) →
    Option (Opts × List Nat × List (String × CacheEntry))
  | [], opts, invoked, writes => some (opts, invoked, writes)
  | (i, b) :: rest, opts, invoked, writes =>
    if b.realm ≠ realm then loginLoop m r reqID realm rest opts invoked writes
    else
      let opts1 : Opts := { opts with auth_backend_found := true }
      match b.err with
      | some _ =>
        match b.resp.code with
        | none => none
        | some c =>
          loginLoop m r reqID realm rest
            { opts1 with message := some "Authentication failed", status_code := some c }
            (invoked ++ [i]) writes
      | none =>
        match b.resp.claims with
        | none => none
        | some c0 =>
          let c := stampClaims c0 r.currentURL r.sourceAddr reqID m.enableSourceIPTracking
          loginLoop m r reqID realm rest
            { opts1 with user_claims := some c, authenticated := true, status_code := some 200 }
            (invoked ++ [i]) (writes ++ [(c.ID, ⟨c, b.name, b.realm, b.method⟩)])

/-- The routing switch (plugin.go lines 168-353), dispatching on the ordered
prefix classification. -/
def route (m : AuthPortal) (r : Request) (reqID urlPath : String)
    (cookie : Option String) (opts : Opts) : Option Outcome :=
  match classify urlPath with
  | .register =>
    if m.registration.disabled then
      some (mkOut .serveGeneric { opts with flow := some "unsupported_feature" } cookie)
    else if m.registration.dropbox = "" then
      some (mkOut .serveGeneric { opts with flow := some "unsupported_feature" } cookie)
    else
      some (mkOut .serveRegister { opts with flow := some "register" } cookie)
  | .recovery =>
    some (mkOut .serveGeneric { opts with flow := some "unsupported_feature" } cookie)
  | .logout =>
    some (mkOut .serveLogoff { opts with flow := some "logout" } cookie)
  | .assets =>
    some (mkOut .serveAssets { opts with flow := some "assets" } cookie)
  | .whoami =>
    some (mkOut .serveWhoami { opts with flow := some "whoami" } cookie)
  | .settings =>
    some (mkOut .serveSettings { opts with flow := some "settings" } cookie)
  | .portalPage =>
    some (mkOut .servePortal { opts with flow := some "portal" } cookie)
  | .delegated =>
    let parts := splitSeg urlPath
    if parts.length < 2 then
      let opts2 : Opts :=
        { opts with
          status_code := some 400, flow := some "malformed_backend",
          authenticated := false }
      some (mkOut .serveGeneric opts2 cookie)
    else
      delegLoop m r reqID (parts.getD 0 "") (parts.getD 1 "") cookie
        { opts with flow := some (parts.getD 0 "") } m.backends.enum []
  | .login =>
    let opts1 : Opts := { opts with flow := some "login" }
    if opts1.authenticated then
      some (mkOut .serveLogin { opts1 with authorized := some true } cookie)
    else
      match r.creds with
      | .parseErr _ =>
        some (mkOut .serveLogin
          { opts1 with message := some "Authentication failed", status_code := some 400 } cookie)
      | .noCreds => some (mkOut .serveLogin opts1 cookie)
      | .creds realm =>
        match loginLoop m r reqID realm m.backends.enum
            { opts1 with auth_credentials_found := true } [] [] with
        | none => none
        | some (opts2, invoked, writes) =>
          let opts3 : Opts :=
            if opts2.auth_backend_found = false
            then { opts2 with status_code := some 500 } else opts2
          some { action := .serveLogin, opts := opts3, invoked := invoked,
                 cacheWrites := writes, cookie := cookie, location := none }
  | .notFound =>
    some (mkOut .serveGeneric { opts with flow := some "not_found" } cookie)

/-- Query-parameter pre-processing (plugin.go lines 151-165) followed by the
routing switch: on GET the redirect_url parameter is persisted into the
redirect cookie, and if the path is not a delegated-backend path the request
is immediately 302-redirected to the portal's auth root. -/
def serveRouted (m : AuthPortal) (r : Request) (reqID : String) (opts : Opts) :
    Option Outcome :=
  let urlPath := urlPathOf m r
  if r.httpMethod = "GET" then
    let cookie := r.redirectParam.map
      (fun v => redirectToToken ++ "=" ++ v ++ ";" ++ m.cookieAttrs)
    if delegatedPfx urlPath = false ∧ cookie.isSome = true then
      some { action := .redirect302, opts := opts, invoked := [], cacheWrites := [],
             cookie := cookie, location := some m.authURLPath }
    else
      route m r reqID urlPath cookie opts
  else
    route m r reqID urlPath none opts

/-- AuthPortal.ServeHTTP (plugin.go lines 107-354): token validation first —
authOK marks the request authenticated; an expiration error short-circuits to
the session-login redirect; "no token found" is silent and any other error is
only logged — then query pre-processing and routing.  `none` models a Go
runtime panic. -/
def serveHTTP (m : AuthPortal) (r : Request) (tok : TokenResult) (reqID : String) :
    Option Outcome :=
  match tok with
  | .ok claims =>
    serveRouted m r reqID { opts0 with authenticated := true, user_claims := some claims }
  | .fail errMsg =>
    match errMsg with
    | some e =>
      if e = "[Token is expired]" then
        some { action := .loginRedirect, opts := opts0, invoked := [], cacheWrites := [],
               cookie := none, location := none }
      else
        serveRouted m r reqID opts0
    | none => serveRouted m r reqID opts0

/-- Modelled from the spec: the Session Cache (pkg/cache, outside the core
source under src/) maps a session identifier to its entry; `Add` overwrites
any live entry under the same identifier rather than duplicating it. -/
def cacheAdd (c : List (String × CacheEntry)) (k : String) (v : CacheEntry) :
    List (String × CacheEntry) :=
  (k, v) :: c.filter (fun kv => kv.1 ≠ k)

/-- Modelled from the spec: Session Cache retrieval by identifier. -/
def cacheGet (c : List (String × CacheEntry)) (k : String) : Option CacheEntry :=
  (c.find? (fun kv => kv.1 = k)).map (fun kv => kv.2)

/-- Replay of a run's recorded cache writes, in order, against a cache state. -/
def applyWrites (c : List (String × CacheEntry)) :
    List (String × CacheEntry) → List (String × CacheEntry)
  | [] => c
  | kv :: ws => applyWrites (cacheAdd c kv.1 kv.2) ws

/-- The last write under a key within a recorded write list. -/
def lastWrite : List (String × CacheEntry) → String → Option CacheEntry
  | [], _ => none
  | kv :: ws, k =>
    match lastWrite ws k with
    | some e => some e
    | none => if kv.1 = k then some kv.2 else none

/-- What the orchestrator guarantees about every session-cache write: it was
produced by a configured backend whose Authenticate succeeded with a claims
entry, the stored backend identity is exactly that backend's, the key equals
the stored claims' ID, and the key is either the request correlation id or the
non-empty ID supplied by the backend. -/
def goodWrite (reqID : String) (bs : List Backend) (kv : String × CacheEntry) : Prop :=
  ∃ b, b ∈ bs ∧ b.err = none ∧ ∃ c, b.resp.claims = some c ∧
    kv.2.backend_name = b.name ∧ kv.2.backend_realm = b.realm ∧
    kv.2.backend_method = b.method ∧ kv.2.claims.ID = kv.1 ∧
    (kv.1 = reqID ∨ (kv.1 = c.ID ∧ c.ID ≠ ""))


/-- The opts bag right after token validation, per validator outcome. -/
def tokOpts : TokenResult → Opts
  | .ok claims => { opts0 with authenticated := true, user_claims := some claims }
  | .fail _ => opts0

/-- The opts bag the interactive-login loop starts from when the request is not
yet authenticated and credentials were found. -/
def loginInitOpts : Opts :=
  { opts0 with flow := some "login", auth_credentials_found := true }

/-- The redirect-cookie header value the GET pre-processing sets, if any. -/
def cookieOf (m : AuthPortal) (r : Request) : Option String :=
  if r.httpMethod = "GET" then
    r.redirectParam.map (fun v => redirectToToken ++ "=" ++ v ++ ";" ++ m.cookieAttrs)
  else none

/-- Test fixture: a portal with the given backends mounted at /auth. -/
def fixtureConf (bs : List Backend) : AuthPortal :=
  { authURLPath := "/auth", backends := bs, enableSourceIPTracking := false,
    registration := { disabled := true, dropbox := "" }, cookieAttrs := "Path=/;" }

/-- Test fixture: a request with the given method, path, redirect parameter
and credential-parse result. -/
def fixtureReq (meth path : String) (rp : Option String) (cr : CredResult) : Request :=
  { httpMethod := meth, rawPath := path, redirectParam := rp,
    currentURL := "https://h" ++ path, sourceAddr := "1.2.3.4", creds := cr }

/-- Test fixture: an (oauth2, google) backend failing with status 401. -/
def bOauthFail : Backend :=
  { name := "goog", realm := "google", method := "oauth2", err := some "denied",
    resp := { code := some 401, redirect_url := none, claims := none } }

/-- Test fixture: an (oauth2, google) backend returning no error, no redirect
and no claims entry. -/
def bOauthNoClaims : Backend :=
  { name := "goog", realm := "google", method := "oauth2", err := none,
    resp := { code := some 401, redirect_url := none, claims := none } }

/-- Test fixture: an (oauth2, google) backend succeeding with empty-ID claims. -/
def bOauthEmptyID : Backend :=
  { name := "goog", realm := "google", method := "oauth2", err := none,
    resp := { code := none, redirect_url := none,
              claims := some { ID := "", Issuer := "", Address := "" } } }

/-- Test fixture: a realm-corp backend succeeding with the given name, method
and claim ID. -/
def bCorpOK (nm mth id : String) : Backend :=
  { name := nm, realm := "corp", method := mth, err := none,
    resp := { code := none, redirect_url := none,
              claims := some { ID := id, Issuer := "", Address := "" } } }

/-- Test fixture: a realm-corp backend failing with status 401. -/
def bCorpFail : Backend :=
  { name := "locdb", realm := "corp", method := "local", err := some "denied",
    resp := { code := some 401, redirect_url := none, claims := none } }

/-- Test fixture: a realm-corp backend failing with a result that lacks the
integer code entry. -/
def bCorpFailNoCode : Backend :=
  { name := "locdb", realm := "corp", method := "local", err := some "denied",
    resp := { code := none, redirect_url := none, claims := none } }

/-- The ID produced by claims finalization: the correlation id when the backend
supplied an empty ID, the backend's own ID otherwise. -/
theorem stampClaims_ID (c : UserClaims) (u a reqID : String) (t : Bool) :
    (stampClaims c u a reqID t).ID = if c.ID = "" then reqID else c.ID := by
  unfold stampClaims
  cases t <;> by_cases h : c.ID = "" <;> simp [h]

/-- Second components of enumerated list elements are list elements. -/
theorem snd_mem_of_mem_enum {α : Type} {l : List α} {p : Nat × α} (h : p ∈ l.enum) :
    p.2 ∈ l := by
  rw [List.mem_enum_iff_get?] at h
  exact List.get?_mem h

/-- Every list element appears, with some index, in the enumeration. -/
theorem exists_enum_of_mem {α : Type} {l : List α} {b : α} (h : b ∈ l) :
    ∃ j, (j, b) ∈ l.enum := by
  obtain ⟨j, hj⟩ := List.mem_iff_get?.mp h
  exact ⟨j, List.mk_mem_enum_iff_get?.mpr hj⟩

/-- classify answers delegated only on a delegated-backend prefix. -/
theorem classify_delegated {p : String} (h : classify p = .delegated) :
    delegatedPfx p = true := by
  unfold classify at h
  split_ifs at h <;> simp_all

/-- find? is unchanged by filtering with a predicate implied by the search. -/
theorem find?_filter_of_imp {α : Type} (pb qb : α → Bool)
    (himp : ∀ x, pb x = true → qb x = true) :
    ∀ l : List α, List.find? pb (l.filter qb) = List.find? pb l := by
  intro l
  induction l with
  | nil => rfl
  | cons x l ih =>
    by_cases hq : qb x = true
    · by_cases hp : pb x = true <;> simp [List.filter_cons, hq, List.find?_cons, hp, ih]
    · have hp : pb x = false := by
        cases hpx : pb x
        · rfl
        · exact absurd (himp x hpx) hq
      simp [List.filter_cons, hq, List.find?_cons, hp, ih]

/-- Cache retrieval after an overwrite-add: the new entry under its key,
everything else untouched. -/
theorem cacheGet_cacheAdd (c : List (String × CacheEntry)) (k1 : String) (v : CacheEntry)
    (k : String) :
    cacheGet (cacheAdd c k1 v) k = if k1 = k then some v else cacheGet c k := by
  by_cases h : k1 = k
  · subst h; simp [cacheGet, cacheAdd, List.find?_cons]
  · unfold cacheGet cacheAdd
    rw [if_neg h, List.find?_cons]
    have hd : (decide ((k1, v).1 = k)) = false := by simp [h]
    rw [hd]
    congr 1
    apply find?_filter_of_imp
    intro kv hkv
    simp only [decide_eq_true_eq] at hkv ⊢
    intro hk1
    exact h (hk1.symm.trans hkv)

/-- Replaying a run's writes: a key written during the run retrieves its last
write; an unwritten key retrieves whatever the prior cache held. -/
theorem cacheGet_applyWrites (k : String) :
    ∀ (ws : List (String × CacheEntry)) (c : List (String × CacheEntry)),
      cacheGet (applyWrites c ws) k =
        match lastWrite ws k with
        | some e => some e
        | none => cacheGet c k := by
  intro ws
  induction ws with
  | nil => intro c; simp [applyWrites, lastWrite]
  | cons kv ws ih =>
    intro c
    simp only [applyWrites, lastWrite]
    rw [ih]
    cases hlast : lastWrite ws k with
    | some e => simp
    | none =>
      rw [cacheGet_cacheAdd]
      by_cases hk : kv.1 = k <;> simp [hk]

/-- A last write under a key is one of the writes, under that key. -/
theorem lastWrite_some_mem :
    ∀ (ws : List (String × CacheEntry)) (k : String) (e : CacheEntry),
      lastWrite ws k = some e → (k, e) ∈ ws := by
  intro ws
  induction ws with
  | nil => intro k e h; simp [lastWrite] at h
  | cons kv ws ih =>
    intro k e h
    simp only [lastWrite] at h
    cases hlast : lastWrite ws k with
    | some e2 =>
      rw [hlast] at h
      cases h
      exact List.mem_cons_of_mem _ (ih k e hlast)
    | none =>
      rw [hlast] at h
      by_cases hk : kv.1 = k
      · rw [if_pos hk] at h
        cases h
        subst hk
        exact List.mem_cons_self _ _
      · rw [if_neg hk] at h
        cases h

/-- A key that occurs among the writes has a last write. -/
theorem lastWrite_isSome_of_mem :
    ∀ (ws : List (String × CacheEntry)) (kv : String × CacheEntry), kv ∈ ws →
      (lastWrite ws kv.1).isSome = true := by
  intro ws
  induction ws with
  | nil => intro kv h; cases h
  | cons kv1 ws ih =>
    intro kv hkv
    simp only [lastWrite]
    cases hlast : lastWrite ws kv.1 with
    | some e => simp
    | none =>
      rcases List.mem_cons.mp hkv with h | h
      · subst h; simp
      · have h2 := ih kv h
        rw [hlast] at h2
        simp at h2

/-- A key that occurs among the writes has a last write, and that last write
is one of the writes. -/
theorem lastWrite_mem (ws : List (String × CacheEntry)) (kv : String × CacheEntry)
    (h : kv ∈ ws) : ∃ e, lastWrite ws kv.1 = some e ∧ (kv.1, e) ∈ ws := by
  cases hlast : lastWrite ws kv.1 with
  | some e => exact ⟨e, rfl, lastWrite_some_mem ws kv.1 e hlast⟩
  | none =>
    have h2 := lastWrite_isSome_of_mem ws kv h
    rw [hlast] at h2
    simp at h2

/-- The entry written on a successful authentication is a good write. -/
theorem goodWrite_stamp (m : AuthPortal) (r : Request) (reqID : String)
    (b : Backend) (hb : b ∈ m.backends) (c0 : UserClaims)
    (herr : b.err = none) (hcl : b.resp.claims = some c0) :
    goodWrite reqID m.backends
      ((stampClaims c0 r.currentURL r.sourceAddr reqID m.enableSourceIPTracking).ID,
       ⟨stampClaims c0 r.currentURL r.sourceAddr reqID m.enableSourceIPTracking,
        b.name, b.realm, b.method⟩) := by
  refine ⟨b, hb, herr, c0, hcl, rfl, rfl, rfl, rfl, ?_⟩
  rw [stampClaims_ID]
  by_cases hid : c0.ID = ""
  · left
    simp [hid]
  · right
    simp [hid]

/-- Every cache write the delegated-backend loop performs is a good write. -/
theorem delegLoop_writes_good (m : AuthPortal) (r : Request)
    (reqID meth realm : String) (cookie : Option String) (opts : Opts) :
    ∀ (ibs : List (Nat × Backend)) (invoked : List Nat) (o : Outcome),
      (∀ p ∈ ibs, p.2 ∈ m.backends) →
      delegLoop m r reqID meth realm cookie opts ibs invoked = some o →
      ∀ kv ∈ o.cacheWrites, goodWrite reqID m.backends kv := by
  intro ibs
  induction ibs with
  | nil =>
    intro invoked o hmem ho kv hkv
    simp only [delegLoop, Option.some_inj] at ho
    subst ho
    simp at hkv
  | cons p rest ih =>
    intro invoked o hmem ho kv hkv
    obtain ⟨i, b⟩ := p
    have hmemr : ∀ q ∈ rest, q.2 ∈ m.backends :=
      fun q hq => hmem q (List.mem_cons_of_mem _ hq)
    simp only [delegLoop] at ho
    by_cases h1 : b.realm ≠ realm
    · rw [if_pos h1] at ho
      exact ih invoked o hmemr ho kv hkv
    · rw [if_neg h1] at ho
      by_cases h2 : b.method ≠ meth
      · rw [if_pos h2] at ho
        exact ih invoked o hmemr ho kv hkv
      · rw [if_neg h2] at ho
        cases herr : b.err with
        | some e =>
          simp only [herr] at ho
          cases hcode : b.resp.code with
          | none => simp [hcode] at ho
          | some cde =>
            simp only [hcode, Option.some_inj] at ho
            subst ho
            simp at hkv
        | none =>
          simp only [herr] at ho
          cases hred : b.resp.redirect_url with
          | some v =>
            simp only [hred, Option.some_inj] at ho
            subst ho
            simp at hkv
          | none =>
            simp only [hred] at ho
            cases hcl : b.resp.claims with
            | none => simp [hcl] at ho
            | some c0 =>
              simp only [hcl, Option.some_inj] at ho
              subst ho
              simp only [List.mem_singleton] at hkv
              subst hkv
              exact goodWrite_stamp m r reqID b (hmem (i, b) (List.mem_cons_self _ _)) c0 herr hcl

/-- Every cache write the interactive-login loop performs, beyond those already
accumulated, is a good write. -/
theorem loginLoop_writes_good (m : AuthPortal) (r : Request) (reqID realm : String) :
    ∀ (ibs : List (Nat × Backend)) (opts : Opts) (invoked : List Nat)
      (writes : List (String × CacheEntry))
      (res : Opts × List Nat × List (String × CacheEntry)),
      (∀ p ∈ ibs, p.2 ∈ m.backends) →
      (∀ kv ∈ writes, goodWrite reqID m.backends kv) →
      loginLoop m r reqID realm ibs opts invoked writes = some res →
      ∀ kv ∈ res.2.2, goodWrite reqID m.backends kv := by
  intro ibs
  induction ibs with
  | nil =>
    intro opts invoked writes res hmem hw ho kv hkv
    simp only [loginLoop, Option.some_inj] at ho
    subst ho
    exact hw kv hkv
  | cons p rest ih =>
    intro opts invoked writes res hmem hw ho kv hkv
    obtain ⟨i, b⟩ := p
    have hmemr : ∀ q ∈ rest, q.2 ∈ m.backends :=
      fun q hq => hmem q (List.mem_cons_of_mem _ hq)
    simp only [loginLoop] at ho
    by_cases h1 : b.realm ≠ realm
    · rw [if_pos h1] at ho
      exact ih _ _ _ _ hmemr hw ho kv hkv
    · rw [if_neg h1] at ho
      cases herr : b.err with
      | some e =>
        simp only [herr] at ho
        cases hcode : b.resp.code with
        | none => simp [hcode] at ho
        | some cde =>
          simp only [hcode] at ho
          exact ih _ _ _ _ hmemr hw ho kv hkv
      | none =>
        simp only [herr] at ho
        cases hcl : b.resp.claims with
        | none => simp [hcl] at ho
        | some c0 =>
          simp only [hcl] at ho
          refine ih _ _ _ _ hmemr ?_ ho kv hkv
          intro kv2 hkv2
          rcases List.mem_append.mp hkv2 with h | h
          · exact hw kv2 h
          · simp only [List.mem_singleton] at h
            subst h
            exact goodWrite_stamp m r reqID b (hmem (i, b) (List.mem_cons_self _ _)) c0 herr hcl

/-- The interactive-login loop invokes exactly the realm-matching backends, in
configuration order, appended to whatever was already recorded. -/
theorem loginLoop_invoked (m : AuthPortal) (r : Request) (reqID realm : String) :
    ∀ (ibs : List (Nat × Backend)) (opts : Opts) (invoked : List Nat)
      (writes : List (String × CacheEntry))
      (res : Opts × List Nat × List (String × CacheEntry)),
      loginLoop m r reqID realm ibs opts invoked writes = some res →
      res.2.1 = invoked ++ (ibs.filter (fun p => p.2.realm = realm)).map Prod.fst := by
  intro ibs
  induction ibs with
  | nil =>
    intro opts invoked writes res ho
    simp only [loginLoop, Option.some_inj] at ho
    subst ho
    simp
  | cons p rest ih =>
    intro opts invoked writes res ho
    obtain ⟨i, b⟩ := p
    simp only [loginLoop] at ho
    by_cases h1 : b.realm ≠ realm
    · rw [if_pos h1] at ho
      rw [ih _ _ _ _ ho]
      simp [List.filter_cons, h1]
    · rw [if_neg h1] at ho
      have h1p : b.realm = realm := not_not.mp h1
      cases herr : b.err with
      | some e =>
        simp only [herr] at ho
        cases hcode : b.resp.code with
        | none => simp [hcode] at ho
        | some cde =>
          simp only [hcode] at ho
          rw [ih _ _ _ _ ho]
          simp [List.filter_cons, h1p]
      | none =>
        simp only [herr] at ho
        cases hcl : b.resp.claims with
        | none => simp [hcl] at ho
        | some c0 =>
          simp only [hcl] at ho
          rw [ih _ _ _ _ ho]
          simp [List.filter_cons, h1p]

/-- The interactive-login loop's final authenticated flag: true exactly when it
started true or some realm-matching backend in the remaining list returned no
error (the per-backend failure branch never clears the flag). -/
theorem loginLoop_auth (m : AuthPortal) (r : Request) (reqID realm : String) :
    ∀ (ibs : List (Nat × Backend)) (opts : Opts) (invoked : List Nat)
      (writes : List (String × CacheEntry))
      (res : Opts × List Nat × List (String × CacheEntry)),
      loginLoop m r reqID realm ibs opts invoked writes = some res →
      (res.1.authenticated = true ↔
        (opts.authenticated = true ∨ ∃ p, p ∈ ibs ∧ p.2.realm = realm ∧ p.2.err = none)) := by
  intro ibs
  induction ibs with
  | nil =>
    intro opts invoked writes res ho
    simp only [loginLoop, Option.some_inj] at ho
    subst ho
    simp
  | cons p rest ih =>
    intro opts invoked writes res ho
    obtain ⟨i, b⟩ := p
    simp only [loginLoop] at ho
    by_cases h1 : b.realm ≠ realm
    · rw [if_pos h1] at ho
      rw [ih _ _ _ _ ho]
      simp only [List.mem_cons]
      constructor
      · rintro (h | ⟨q, hq, hr, he⟩)
        · exact Or.inl h
        · exact Or.inr ⟨q, Or.inr hq, hr, he⟩
      · rintro (h | ⟨q, hq | hq, hr, he⟩)
        · exact Or.inl h
        · subst hq
          exact absurd hr h1
        · exact Or.inr ⟨q, hq, hr, he⟩
    · rw [if_neg h1] at ho
      have h1p : b.realm = realm := not_not.mp h1
      cases herr : b.err with
      | some e =>
        simp only [herr] at ho
        cases hcode : b.resp.code with
        | none => simp [hcode] at ho
        | some cde =>
          simp only [hcode] at ho
          rw [ih _ _ _ _ ho]
          simp only [List.mem_cons]
          constructor
          · rintro (h | ⟨q, hq, hr, he⟩)
            · exact Or.inl h
            · exact Or.inr ⟨q, Or.inr hq, hr, he⟩
          · rintro (h | ⟨q, hq | hq, hr, he⟩)
            · exact Or.inl h
            · subst hq
              rw [herr] at he
              cases he
            · exact Or.inr ⟨q, hq, hr, he⟩
      | none =>
        simp only [herr] at ho
        cases hcl : b.resp.claims with
        | none => simp [hcl] at ho
        | some c0 =>
          simp only [hcl] at ho
          rw [ih _ _ _ _ ho]
          simp only [List.mem_cons]
          constructor
          · intro _
            exact Or.inr ⟨(i, b), Or.inl rfl, h1p, herr⟩
          · intro _
            exact Or.inl (by trivial)

/-- If any realm-matching backend in the list errs with a result lacking an
integer code, the interactive-login loop faults. -/
theorem loginLoop_err_no_code (m : AuthPortal) (r : Request) (reqID realm : String) :
    ∀ (ibs : List (Nat × Backend)) (opts : Opts) (invoked : List Nat)
      (writes : List (String × CacheEntry)) (i : Nat) (b : Backend) (e : String),
      (i, b) ∈ ibs → b.realm = realm → b.err = some e → b.resp.code = none →
      loginLoop m r reqID realm ibs opts invoked writes = none := by
  intro ibs
  induction ibs with
  | nil =>
    intro _ _ _ _ _ _ h
    cases h
  | cons p rest ih =>
    intro opts invoked writes i b e hmem hrealm herr hcode
    obtain ⟨j, b2⟩ := p
    simp only [loginLoop]
    rcases List.mem_cons.mp hmem with h | h
    · injection h with hj hb
      subst hj
      subst hb
      rw [if_neg (not_not_intro hrealm)]
      simp [herr, hcode]
    · by_cases h1 : b2.realm ≠ realm
      · rw [if_pos h1]
        exact ih _ _ _ i b e h hrealm herr hcode
      · rw [if_neg h1]
        cases herr2 : b2.err with
        | some e2 =>
          cases hcode2 : b2.resp.code with
          | none => simp [hcode2]
          | some c2 =>
            simp only [hcode2]
            exact ih _ _ _ i b e h hrealm herr hcode
        | none =>
          cases hcl2 : b2.resp.claims with
          | none => simp [hcl2]
          | some c0 =>
            simp only [hcl2]
            exact ih _ _ _ i b e h hrealm herr hcode

/-- If the first (method, realm)-matching backend errs with a result lacking an
integer code, the delegated-backend loop faults. -/
theorem delegLoop_first_match_err_no_code (m : AuthPortal) (r : Request)
    (reqID meth realm : String) (cookie : Option String) (opts : Opts) :
    ∀ (ibs : List (Nat × Backend)) (invoked : List Nat) (j : Nat) (b : Backend) (e : String),
      ibs.find? (fun p => decide (p.2.realm = realm) && decide (p.2.method = meth)) =
        some (j, b) →
      b.err = some e → b.resp.code = none →
      delegLoop m r reqID meth realm cookie opts ibs invoked = none := by
  intro ibs
  induction ibs with
  | nil =>
    intro _ _ _ _ hfind
    simp at hfind
  | cons p rest ih =>
    intro invoked j b e hfind herr hcode
    obtain ⟨j2, b2⟩ := p
    rw [List.find?_cons] at hfind
    simp only [delegLoop]
    by_cases h1 : b2.realm = realm
    · by_cases h2 : b2.method = meth
      · have hp : (decide ((j2, b2).2.realm = realm) && decide ((j2, b2).2.method = meth))
            = true := by simp [h1, h2]
        rw [hp] at hfind
        simp only [Option.some_inj] at hfind
        injection hfind with hj hb
        subst hj
        subst hb
        rw [if_neg (not_not_intro h1), if_neg (not_not_intro h2)]
        simp [herr, hcode]
      · have hp : (decide ((j2, b2).2.realm = realm) && decide ((j2, b2).2.method = meth))
            = false := by simp [h2]
        rw [hp] at hfind
        rw [if_neg (not_not_intro h1), if_pos h2]
        exact ih invoked j b e hfind herr hcode
    · have hp : (decide ((j2, b2).2.realm = realm) && decide ((j2, b2).2.method = meth))
          = false := by simp [h1]
      rw [hp] at hfind
      rw [if_pos h1]
      exact ih invoked j b e hfind herr hcode

/-- Every cache write the routing switch performs is a good write. -/
theorem route_writes_good (m : AuthPortal) (r : Request) (reqID urlPath : String)
    (cookie : Option String) (opts : Opts) (o : Outcome)
    (ho : route m r reqID urlPath cookie opts = some o) :
    ∀ kv ∈ o.cacheWrites, goodWrite reqID m.backends kv := by
  intro kv hkv
  unfold route at ho
  cases hc : classify urlPath
  case delegated =>
    simp only [hc] at ho
    split at ho
    · rw [Option.some_inj] at ho
      subst ho
      simp [mkOut] at hkv
    · exact delegLoop_writes_good m r reqID _ _ cookie _ m.backends.enum [] o
        (fun p hp => snd_mem_of_mem_enum hp) ho kv hkv
  case login =>
    simp only [hc] at ho
    split at ho
    · rw [Option.some_inj] at ho
      subst ho
      simp [mkOut] at hkv
    · split at ho
      · rw [Option.some_inj] at ho
        subst ho
        simp [mkOut] at hkv
      · rw [Option.some_inj] at ho
        subst ho
        simp [mkOut] at hkv
      · split at ho
        · exact absurd ho (by simp)
        · rename_i opts2 invoked writes heq
          simp only [Option.some_inj] at ho
          subst ho
          refine loginLoop_writes_good m r reqID _ m.backends.enum _ [] []
            (opts2, invoked, writes) (fun p hp => snd_mem_of_mem_enum hp) ?_ heq kv hkv
          intro kv2 h
          cases h
  all_goals
    simp only [hc] at ho
    repeat' split at ho
    all_goals
      rw [Option.some_inj] at ho
      subst ho
      simp [mkOut] at hkv

/-- Every cache write of query pre-processing plus routing is a good write. -/
theorem serveRouted_writes_good (m : AuthPortal) (r : Request) (reqID : String)
    (opts : Opts) (o : Outcome) (ho : serveRouted m r reqID opts = some o) :
    ∀ kv ∈ o.cacheWrites, goodWrite reqID m.backends kv := by
  intro kv hkv
  simp only [serveRouted] at ho
  split at ho
  · split at ho
    · rw [Option.some_inj] at ho
      subst ho
      simp at hkv
    · exact route_writes_good _ _ _ _ _ _ _ ho kv hkv
  · exact route_writes_good _ _ _ _ _ _ _ ho kv hkv

/-- Every session-cache write ServeHTTP performs is a good write: it stems from
a configured backend whose Authenticate succeeded with claims, carries exactly
that backend's name/realm/method, and is keyed by the stored claims ID, which
is the correlation id or the backend's own non-empty ID. -/
theorem serveHTTP_writes_good (m : AuthPortal) (r : Request) (tok : TokenResult)
    (reqID : String) (o : Outcome) (ho : serveHTTP m r tok reqID = some o) :
    ∀ kv ∈ o.cacheWrites, goodWrite reqID m.backends kv := by
  intro kv hkv
  cases tok with
  | ok claims =>
    simp only [serveHTTP] at ho
    exact serveRouted_writes_good _ _ _ _ _ ho kv hkv
  | fail errMsg =>
    cases errMsg with
    | some e =>
      simp only [serveHTTP] at ho
      split at ho
      · rw [Option.some_inj] at ho
        subst ho
        simp at hkv
      · exact serveRouted_writes_good _ _ _ _ _ ho kv hkv
    | none =>
      simp only [serveHTTP] at ho
      exact serveRouted_writes_good _ _ _ _ _ ho kv hkv

/-- Unless the token is expired, ServeHTTP proceeds to query pre-processing and
routing with the opts bag determined by the validator outcome. -/
theorem serveHTTP_route (m : AuthPortal) (r : Request) (tok : TokenResult) (reqID : String)
    (hexp : tok ≠ .fail (some "[Token is expired]")) :
    serveHTTP m r tok reqID = serveRouted m r reqID (tokOpts tok) := by
  cases tok with
  | ok claims => rfl
  | fail errMsg =>
    cases errMsg with
    | none => rfl
    | some s =>
      have hs : ¬ s = "[Token is expired]" := by
        intro h
        exact hexp (by rw [h])
      simp only [serveHTTP, if_neg hs]
      rfl

/-- On a delegated-backend path the GET redirect shortcut never fires: routing
runs with the recorded cookie. -/
theorem serveRouted_route_of_deleg (m : AuthPortal) (r : Request) (reqID : String)
    (opts : Opts) (hdel : delegatedPfx (urlPathOf m r) = true) :
    serveRouted m r reqID opts = route m r reqID (urlPathOf m r) (cookieOf m r) opts := by
  by_cases hm : r.httpMethod = "GET"
  · simp only [serveRouted, cookieOf, if_pos hm, hdel]
    rw [if_neg]
    intro hcond
    cases hcond.1
  · simp only [serveRouted, cookieOf, if_neg hm]

/-- Without a redirect_url query parameter the GET redirect shortcut never
fires: routing runs with no cookie. -/
theorem serveRouted_route_of_no_query (m : AuthPortal) (r : Request) (reqID : String)
    (opts : Opts) (hq : r.httpMethod = "GET" → r.redirectParam = none) :
    serveRouted m r reqID opts = route m r reqID (urlPathOf m r) none opts := by
  by_cases hm : r.httpMethod = "GET"
  · simp only [serveRouted, if_pos hm, hq hm, Option.map_none']
    rw [if_neg]
    intro hcond
    cases hcond.2
  · simp only [serveRouted, if_neg hm]

/-- Reduction of an unauthenticated, non-expired request with credentials on
the login flow: the outcome's authenticated flag, invocation list and cache
writes are exactly those of the interactive-login loop started from the
initial login opts. -/
theorem serveHTTP_login_inv (m : AuthPortal) (r : Request) (e : Option String)
    (reqID realm : String) (o : Outcome)
    (hexp : e ≠ some "[Token is expired]")
    (hcl : classify (urlPathOf m r) = .login)
    (hcred : r.creds = .creds realm)
    (hq : r.httpMethod = "GET" → r.redirectParam = none)
    (ho : serveHTTP m r (.fail e) reqID = some o) :
    ∃ res, loginLoop m r reqID realm m.backends.enum loginInitOpts [] [] = some res ∧
      o.opts.authenticated = res.1.authenticated ∧
      o.invoked = res.2.1 ∧ o.cacheWrites = res.2.2 := by
  have hexp2 : (TokenResult.fail e) ≠ TokenResult.fail (some "[Token is expired]") := by
    intro h
    injection h with h2
    exact hexp h2
  rw [serveHTTP_route m r _ reqID hexp2,
      serveRouted_route_of_no_query m r reqID _ hq] at ho
  simp only [route, hcl, hcred] at ho
  split at ho
  · rename_i hcond
    simp [tokOpts, opts0] at hcond
  · split at ho
    · exact absurd ho (by simp)
    · rename_i opts2 invoked writes heq
      simp only [Option.some_inj] at ho
      subst ho
      refine ⟨(opts2, invoked, writes), heq, ?_, rfl, rfl⟩
      show (if opts2.auth_backend_found = false
            then { opts2 with status_code := some 500 } else opts2).authenticated =
        opts2.authenticated
      split <;> rfl

/-- Routing an already-authenticated request on any non-delegated flow keeps
the authenticated flag and invokes no backend. -/
theorem route_auth_preserved (m : AuthPortal) (r : Request) (reqID urlPath : String)
    (cookie : Option String) (opts : Opts)
    (hauth : opts.authenticated = true)
    (hcl : classify urlPath ≠ .delegated) :
    ∃ o, route m r reqID urlPath cookie opts = some o ∧
      o.opts.authenticated = true ∧ o.invoked = [] ∧ o.cacheWrites = [] := by
  cases hc : classify urlPath
  case delegated => exact absurd hc hcl
  case register =>
    simp only [route, hc]
    split
    · exact ⟨_, rfl, hauth, rfl, rfl⟩
    · split
      · exact ⟨_, rfl, hauth, rfl, rfl⟩
      · exact ⟨_, rfl, hauth, rfl, rfl⟩
  case login =>
    simp only [route, hc]
    rw [if_pos (show ({ opts with flow := some "login" } : Opts).authenticated = true
      from hauth)]
    exact ⟨_, rfl, hauth, rfl, rfl⟩
  all_goals
    simp only [route, hc]
    exact ⟨_, rfl, hauth, rfl, rfl⟩

/-- Claim C4: for every request whose token validation fails with the
expiration error, ServeHTTP immediately returns the session-login redirect
with the untouched initial opts: no cookie is set, no Location is produced by
query pre-processing, no backend is invoked and no cache write happens. -/
theorem C4_expired_token_redirect (m : AuthPortal) (r : Request) (reqID : String) :
    serveHTTP m r (.fail (some "[Token is expired]")) reqID =
      some { action := .loginRedirect, opts := opts0, invoked := [], cacheWrites := [],
             cookie := none, location := none } := by
  simp [serveHTTP]

/-- Claim C8: a non-expired request classified to the delegated-backend flow
whose remaining path has fewer than two slash-separated segments yields status
400, flow malformed_backend, authenticated false, the generic renderer, and no
backend invocation. -/
theorem C8_malformed_backend (m : AuthPortal) (r : Request) (tok : TokenResult)
    (reqID : String)
    (hexp : tok ≠ .fail (some "[Token is expired]"))
    (hcl : classify (urlPathOf m r) = .delegated)
    (hlen : (splitSeg (urlPathOf m r)).length < 2) :
    ∃ o, serveHTTP m r tok reqID = some o ∧ o.action = .serveGeneric ∧
      o.opts.status_code = some 400 ∧ o.opts.flow = some "malformed_backend" ∧
      o.opts.authenticated = false ∧ o.invoked = [] ∧ o.cacheWrites = [] := by
  rw [serveHTTP_route m r tok reqID hexp,
      serveRouted_route_of_deleg m r reqID _ (classify_delegated hcl)]
  simp only [route, hcl]
  rw [if_pos hlen]
  exact ⟨_, rfl, rfl, rfl, rfl, rfl, rfl, rfl⟩

/-- Claim C8 witness: a GET to /auth/saml with one configured backend. -/
theorem C8_malformed_backend_witness :
    (TokenResult.fail (none : Option String) ≠ .fail (some "[Token is expired]")) ∧
    classify (urlPathOf
      { authURLPath := "/auth",
        backends := [{ name := "goog", realm := "google", method := "oauth2",
                       err := some "denied",
                       resp := { code := some 401, redirect_url := none, claims := none } }],
        enableSourceIPTracking := false,
        registration := { disabled := true, dropbox := "" },
        cookieAttrs := "Path=/;" }
      { httpMethod := "GET", rawPath := "/auth/saml", redirectParam := none,
        currentURL := "https://h/auth/saml", sourceAddr := "1.2.3.4",
        creds := .noCreds }) = Flow.delegated ∧
    (∃ o, serveHTTP
      { authURLPath := "/auth",
        backends := [{ name := "goog", realm := "google", method := "oauth2",
                       err := some "denied",
                       resp := { code := some 401, redirect_url := none, claims := none } }],
        enableSourceIPTracking := false,
        registration := { disabled := true, dropbox := "" },
        cookieAttrs := "Path=/;" }
      { httpMethod := "GET", rawPath := "/auth/saml", redirectParam := none,
        currentURL := "https://h/auth/saml", sourceAddr := "1.2.3.4",
        creds := .noCreds }
      (.fail none) "rid" = some o ∧ o.action = .serveGeneric ∧
      o.opts.status_code = some 400 ∧ o.opts.flow = some "malformed_backend" ∧
      o.opts.authenticated = false ∧ o.invoked = [] ∧ o.cacheWrites = []) :=
  ⟨by decide, by decide,
   C8_malformed_backend _ _ _ "rid" (by decide) (by decide) (by decide)⟩

/-- Claim C1 counterexample: a request with a valid token on the delegated
path oauth2/google with a matching failing backend.  The claim asserts that
authenticated stays true and no backend is invoked; the run invokes backend 0
and ends with authenticated false. -/
theorem C1_counterexample :
    (serveHTTP
      { authURLPath := "/auth",
        backends := [{ name := "goog", realm := "google", method := "oauth2",
                       err := some "denied",
                       resp := { code := some 401, redirect_url := none, claims := none } }],
        enableSourceIPTracking := false,
        registration := { disabled := true, dropbox := "" },
        cookieAttrs := "Path=/;" }
      { httpMethod := "GET", rawPath := "/auth/oauth2/google", redirectParam := none,
        currentURL := "https://h/auth/oauth2/google", sourceAddr := "1.2.3.4",
        creds := .noCreds }
      (.ok { ID := "tok-user", Issuer := "", Address := "" }) "rid").map
        (fun o => (o.opts.authenticated, o.invoked)) = some (false, [0]) := by
  decide

/-- Claim C1 amended: with a valid token the request is marked authenticated,
and on every flow other than the delegated-backend prefixes no backend is
invoked and the flag stays true (on delegated paths backends are still
consulted and may clear it). -/
theorem C1_amended_nondelegated (m : AuthPortal) (r : Request) (claims : UserClaims)
    (reqID : String) (hcl : classify (urlPathOf m r) ≠ .delegated) :
    ∃ o, serveHTTP m r (.ok claims) reqID = some o ∧
      o.opts.authenticated = true ∧ o.invoked = [] := by
  have h1 : serveHTTP m r (.ok claims) reqID =
      serveRouted m r reqID (tokOpts (.ok claims)) :=
    serveHTTP_route m r _ reqID (by intro h; cases h)
  rw [h1]
  have hauth : (tokOpts (TokenResult.ok claims)).authenticated = true := rfl
  simp only [serveRouted]
  split
  · split
    · exact ⟨_, rfl, rfl, rfl⟩
    · obtain ⟨o, hro, ha, hi, _⟩ := route_auth_preserved m r reqID _ _ _ hauth hcl
      exact ⟨o, hro, ha, hi⟩
  · obtain ⟨o, hro, ha, hi, _⟩ := route_auth_preserved m r reqID _ _ _ hauth hcl
    exact ⟨o, hro, ha, hi⟩

/-- Claim C1 amended witness: a valid-token GET to /auth/whoami. -/
theorem C1_amended_witness :
    classify (urlPathOf
      { authURLPath := "/auth", backends := [],
        enableSourceIPTracking := false,
        registration := { disabled := true, dropbox := "" },
        cookieAttrs := "Path=/;" }
      { httpMethod := "GET", rawPath := "/auth/whoami", redirectParam := none,
        currentURL := "https://h/auth/whoami", sourceAddr := "1.2.3.4",
        creds := .noCreds }) ≠ Flow.delegated ∧
    (∃ o, serveHTTP
      { authURLPath := "/auth", backends := [],
        enableSourceIPTracking := false,
        registration := { disabled := true, dropbox := "" },
        cookieAttrs := "Path=/;" }
      { httpMethod := "GET", rawPath := "/auth/whoami", redirectParam := none,
        currentURL := "https://h/auth/whoami", sourceAddr := "1.2.3.4",
        creds := .noCreds }
      (.ok { ID := "u", Issuer := "", Address := "" }) "rid" = some o ∧
      o.opts.authenticated = true ∧ o.invoked = []) :=
  ⟨by decide,
   C1_amended_nondelegated _ _ { ID := "u", Issuer := "", Address := "" } "rid" (by decide)⟩

/-- Claim C5 counterexample: a GET to the non-delegated whoami path carrying
redirect_url but presenting an expired token is answered by the session-login
redirect, not by the claimed 302-with-cookie. -/
theorem C5_counterexample :
    (serveHTTP
      { authURLPath := "/auth", backends := [],
        enableSourceIPTracking := false,
        registration := { disabled := true, dropbox := "" },
        cookieAttrs := "Path=/;" }
      { httpMethod := "GET", rawPath := "/auth/whoami", redirectParam := some "https://t",
        currentURL := "https://h/auth/whoami", sourceAddr := "1.2.3.4",
        creds := .noCreds }
      (.fail (some "[Token is expired]")) "rid").map
        (fun o => (o.action, o.cookie)) = some (.loginRedirect, none) := by
  decide

/-- Claim C5 amended: a GET carrying redirect_url on a non-delegated path,
whose token validation does not fail with expiration, yields the 302 to the
auth root with the redirect cookie set from the parameter value and the
configured attributes, with no backend invocation and no cache write. -/
theorem C5_amended_redirect_normalization (m : AuthPortal) (r : Request)
    (tok : TokenResult) (reqID v : String)
    (hm : r.httpMethod = "GET") (hp : r.redirectParam = some v)
    (hdel : delegatedPfx (urlPathOf m r) = false)
    (hexp : tok ≠ .fail (some "[Token is expired]")) :
    serveHTTP m r tok reqID =
      some { action := .redirect302, opts := tokOpts tok, invoked := [], cacheWrites := [],
             cookie := some (redirectToToken ++ "=" ++ v ++ ";" ++ m.cookieAttrs),
             location := some m.authURLPath } := by
  rw [serveHTTP_route m r tok reqID hexp]
  simp only [serveRouted, if_pos hm, hp, Option.map_some']
  rw [if_pos ⟨hdel, rfl⟩]

/-- Claim C5 amended witness: a valid-token GET to /auth/whoami with
redirect_url. -/
theorem C5_amended_witness :
    delegatedPfx (urlPathOf
      { authURLPath := "/auth", backends := [],
        enableSourceIPTracking := false,
        registration := { disabled := true, dropbox := "" },
        cookieAttrs := "Path=/;" }
      { httpMethod := "GET", rawPath := "/auth/whoami", redirectParam := some "https://t",
        currentURL := "https://h/auth/whoami", sourceAddr := "1.2.3.4",
        creds := .noCreds }) = false ∧
    serveHTTP
      { authURLPath := "/auth", backends := [],
        enableSourceIPTracking := false,
        registration := { disabled := true, dropbox := "" },
        cookieAttrs := "Path=/;" }
      { httpMethod := "GET", rawPath := "/auth/whoami", redirectParam := some "https://t",
        currentURL := "https://h/auth/whoami", sourceAddr := "1.2.3.4",
        creds := .noCreds }
      (.fail none) "rid" =
      some { action := .redirect302,
             opts := tokOpts (.fail none), invoked := [], cacheWrites := [],
             cookie := some (redirectToToken ++ "=" ++ "https://t" ++ ";" ++ "Path=/;"),
             location := some "/auth" } :=
  ⟨by decide,
   C5_amended_redirect_normalization _ _ _ "rid" "https://t" rfl rfl (by decide) (by decide)⟩

/-- Claim C2 counterexample: backends 0 (succeeds) and 1 (fails) share realm
corp; both are invoked in order, yet the final authenticated flag is true
although the last backend processed failed — the final state does not reflect
the last backend processed. -/
theorem C2_counterexample :
    (serveHTTP
      { authURLPath := "/auth",
        backends := [{ name := "ldap", realm := "corp", method := "ldap",
                       err := none,
                       resp := { code := none, redirect_url := none,
                                 claims := some { ID := "u1", Issuer := "", Address := "" } } },
                     { name := "locdb", realm := "corp", method := "local",
                       err := some "denied",
                       resp := { code := some 401, redirect_url := none, claims := none } }],
        enableSourceIPTracking := false,
        registration := { disabled := true, dropbox := "" },
        cookieAttrs := "Path=/;" }
      { httpMethod := "POST", rawPath := "/auth/login", redirectParam := none,
        currentURL := "https://h/auth/login", sourceAddr := "1.2.3.4",
        creds := .creds "corp" }
      (.fail none) "rid").map
        (fun o => (o.opts.authenticated, o.invoked, o.opts.status_code)) =
      some (true, [0, 1], some 401) := by
  decide

/-- Claim C2 amended: in the interactive-login flow every realm-matching
backend is invoked, in configuration order, with no short-circuit; the final
context is last-write-wins per field, and the authenticated flag in particular
ends true exactly when at least one matching backend succeeded (a later
failure does not clear it). -/
theorem C2_amended_all_matching_invoked (m : AuthPortal) (r : Request)
    (e : Option String) (reqID realm : String) (o : Outcome)
    (hexp : e ≠ some "[Token is expired]")
    (hcl : classify (urlPathOf m r) = .login)
    (hcred : r.creds = .creds realm)
    (hq : r.httpMethod = "GET" → r.redirectParam = none)
    (ho : serveHTTP m r (.fail e) reqID = some o) :
    o.invoked = (m.backends.enum.filter (fun p => p.2.realm = realm)).map Prod.fst ∧
    (o.opts.authenticated = true ↔ ∃ b ∈ m.backends, b.realm = realm ∧ b.err = none) := by
  obtain ⟨res, hl, hauth, hinv, hw⟩ :=
    serveHTTP_login_inv m r e reqID realm o hexp hcl hcred hq ho
  constructor
  · rw [hinv, loginLoop_invoked m r reqID realm _ _ _ _ _ hl]
    simp
  · rw [hauth, loginLoop_auth m r reqID realm _ _ _ _ _ hl]
    constructor
    · rintro (hfalse | ⟨p, hp, hr, he⟩)
      · simp [loginInitOpts, opts0] at hfalse
      · exact ⟨p.2, snd_mem_of_mem_enum hp, hr, he⟩
    · rintro ⟨b, hb, hr, he⟩
      obtain ⟨j, hj⟩ := exists_enum_of_mem hb
      exact Or.inr ⟨(j, b), hj, hr, he⟩

/-- Claim C2 amended witness: one failing corp backend; it is invoked and the
flag ends false. -/
theorem C2_amended_witness :
    classify (urlPathOf (fixtureConf [bCorpFail])
      (fixtureReq "POST" "/auth/login" none (.creds "corp"))) = Flow.login ∧
    (({ action := .serveLogin,
        opts := { authenticated := false, auth_backend_found := true,
                  auth_credentials_found := true, flow := some "login",
                  status_code := some 401, message := some "Authentication failed",
                  user_claims := none, authorized := none },
        invoked := [0], cacheWrites := [], cookie := none,
        location := none } : Outcome).invoked =
      ((fixtureConf [bCorpFail]).backends.enum.filter
        (fun p => p.2.realm = "corp")).map Prod.fst ∧
      (({ action := .serveLogin,
          opts := { authenticated := false, auth_backend_found := true,
                    auth_credentials_found := true, flow := some "login",
                    status_code := some 401, message := some "Authentication failed",
                    user_claims := none, authorized := none },
          invoked := [0], cacheWrites := [], cookie := none,
          location := none } : Outcome).opts.authenticated = true ↔
        ∃ b ∈ (fixtureConf [bCorpFail]).backends, b.realm = "corp" ∧ b.err = none)) :=
  ⟨by decide,
   C2_amended_all_matching_invoked (fixtureConf [bCorpFail])
     (fixtureReq "POST" "/auth/login" none (.creds "corp")) none "rid" "corp" _
     (by decide) (by decide) rfl (by decide) (by decide)⟩

/-- Claim C9: in the interactive-login flow the per-backend failure branch
never clears the authenticated flag, so for an unauthenticated credential
submission the final flag is true exactly when at least one realm-matching
backend's Authenticate returned no error — even if a later match failed. -/
theorem C9_final_auth_iff_some_success (m : AuthPortal) (r : Request)
    (e : Option String) (reqID realm : String) (o : Outcome)
    (hexp : e ≠ some "[Token is expired]")
    (hcl : classify (urlPathOf m r) = .login)
    (hcred : r.creds = .creds realm)
    (hq : r.httpMethod = "GET" → r.redirectParam = none)
    (ho : serveHTTP m r (.fail e) reqID = some o) :
    o.opts.authenticated = true ↔ ∃ b ∈ m.backends, b.realm = realm ∧ b.err = none := by
  obtain ⟨res, hl, hauth, hinv, hw⟩ :=
    serveHTTP_login_inv m r e reqID realm o hexp hcl hcred hq ho
  rw [hauth, loginLoop_auth m r reqID realm _ _ _ _ _ hl]
  constructor
  · rintro (hfalse | ⟨p, hp, hr, he⟩)
    · simp [loginInitOpts, opts0] at hfalse
    · exact ⟨p.2, snd_mem_of_mem_enum hp, hr, he⟩
  · rintro ⟨b, hb, hr, he⟩
    obtain ⟨j, hj⟩ := exists_enum_of_mem hb
    exact Or.inr ⟨(j, b), hj, hr, he⟩

/-- Claim C9 witness: one succeeding corp backend followed by a failing one;
authenticated ends true and a successful matching backend exists. -/
theorem C9_witness :
    classify (urlPathOf (fixtureConf [bCorpOK "ldap" "ldap" "u1", bCorpFail])
      (fixtureReq "POST" "/auth/login" none (.creds "corp"))) = Flow.login ∧
    (({ action := .serveLogin,
        opts := { authenticated := true, auth_backend_found := true,
                  auth_credentials_found := true, flow := some "login",
                  status_code := some 401, message := some "Authentication failed",
                  user_claims := some { ID := "u1", Issuer := "https://h/auth/login",
                                        Address := "" },
                  authorized := none },
        invoked := [0, 1],
        cacheWrites := [("u1",
          { claims := { ID := "u1", Issuer := "https://h/auth/login", Address := "" },
            backend_name := "ldap", backend_realm := "corp",
            backend_method := "ldap" })],
        cookie := none, location := none } : Outcome).opts.authenticated = true ↔
      ∃ b ∈ (fixtureConf [bCorpOK "ldap" "ldap" "u1", bCorpFail]).backends,
        b.realm = "corp" ∧ b.err = none) :=
  ⟨by decide,
   C9_final_auth_iff_some_success (fixtureConf [bCorpOK "ldap" "ldap" "u1", bCorpFail])
     (fixtureReq "POST" "/auth/login" none (.creds "corp")) none "rid" "corp" _
     (by decide) (by decide) rfl (by decide) (by decide)⟩

/-- Claim C3: when the matched delegated backend returns no error but a result
without a claims entry, the code does not render the generic failure page: the
warning log evaluates err.Error() with a nil error, which faults at runtime
(modelled as the outcome none), even though the status-code read succeeded. -/
theorem C3_missing_claims_faults :
    serveHTTP (fixtureConf [bOauthNoClaims])
      (fixtureReq "GET" "/auth/oauth2/google" none .noCreds)
      (.fail none) "rid" = none := by
  decide

/-- Claim C6: with a non-empty correlation id, every session-cache write uses a
non-empty key that equals the stored claims ID, and the key is either the
correlation id (in particular whenever the backend returned an empty ID) or the
backend's own non-empty claim ID. -/
theorem C6_cache_keys_nonempty (m : AuthPortal) (r : Request) (tok : TokenResult)
    (reqID : String) (o : Outcome)
    (hid : reqID ≠ "") (ho : serveHTTP m r tok reqID = some o) :
    ∀ kv, kv ∈ o.cacheWrites →
      kv.1 ≠ "" ∧ kv.2.claims.ID = kv.1 ∧
      (kv.1 = reqID ∨
        ∃ b ∈ m.backends, ∃ c, b.resp.claims = some c ∧ c.ID = kv.1 ∧ c.ID ≠ "") := by
  intro kv hkv
  obtain ⟨b, hb, herr, c, hc, hn, hr, hm2, hcid, hkey⟩ :=
    serveHTTP_writes_good m r tok reqID o ho kv hkv
  rcases hkey with h | ⟨h1, h2⟩
  · refine ⟨?_, hcid, Or.inl h⟩
    rw [h]
    exact hid
  · refine ⟨?_, hcid, Or.inr ⟨b, hb, c, hc, h1.symm, h2⟩⟩
    rw [h1]
    exact h2

/-- Claim C6 witness: the (oauth2, google) backend returns claims with empty
ID; the single cache write is keyed by the correlation id rid6. -/
theorem C6_witness :
    ("rid6" : String) ≠ "" ∧
    (("rid6",
      ({ claims := { ID := "rid6", Issuer := "https://h/auth/oauth2/google", Address := "" },
         backend_name := "goog", backend_realm := "google",
         backend_method := "oauth2" } : CacheEntry)).1 ≠ "" ∧
     ("rid6",
      ({ claims := { ID := "rid6", Issuer := "https://h/auth/oauth2/google", Address := "" },
         backend_name := "goog", backend_realm := "google",
         backend_method := "oauth2" } : CacheEntry)).2.claims.ID =
       ("rid6",
        ({ claims := { ID := "rid6", Issuer := "https://h/auth/oauth2/google", Address := "" },
           backend_name := "goog", backend_realm := "google",
           backend_method := "oauth2" } : CacheEntry)).1 ∧
     (("rid6",
       ({ claims := { ID := "rid6", Issuer := "https://h/auth/oauth2/google", Address := "" },
          backend_name := "goog", backend_realm := "google",
          backend_method := "oauth2" } : CacheEntry)).1 = "rid6" ∨
       ∃ b ∈ (fixtureConf [bOauthEmptyID]).backends, ∃ c, b.resp.claims = some c ∧
         c.ID = ("rid6",
          ({ claims := { ID := "rid6", Issuer := "https://h/auth/oauth2/google",
                         Address := "" },
             backend_name := "goog", backend_realm := "google",
             backend_method := "oauth2" } : CacheEntry)).1 ∧ c.ID ≠ "")) :=
  ⟨by decide,
   C6_cache_keys_nonempty (fixtureConf [bOauthEmptyID])
     (fixtureReq "GET" "/auth/oauth2/google" none .noCreds) (.fail none) "rid6"
     { action := .serveLogin,
       opts := { authenticated := true, auth_backend_found := false,
                 auth_credentials_found := false, flow := some "oauth2",
                 status_code := some 200, message := none,
                 user_claims := some { ID := "rid6",
                                       Issuer := "https://h/auth/oauth2/google",
                                       Address := "" },
                 authorized := none },
       invoked := [0],
       cacheWrites := [("rid6",
         { claims := { ID := "rid6", Issuer := "https://h/auth/oauth2/google",
                       Address := "" },
           backend_name := "goog", backend_realm := "google",
           backend_method := "oauth2" })],
       cookie := none, location := none }
     (by decide) (by decide)
     ("rid6",
      { claims := { ID := "rid6", Issuer := "https://h/auth/oauth2/google",
                    Address := "" },
        backend_name := "goog", backend_realm := "google",
        backend_method := "oauth2" })
     (by decide)⟩

/-- Claim C7 counterexample: two corp backends both succeed with the same claim
ID u1 in one interactive-login request.  Both writes happen, but retrieval by
u1 after the request returns only the second backend's entry: the first
successful authentication's entry (backend ldap) is not retrievable. -/
theorem C7_counterexample :
    (serveHTTP (fixtureConf [bCorpOK "ldap" "ldap" "u1", bCorpOK "locdb" "local" "u1"])
      (fixtureReq "POST" "/auth/login" none (.creds "corp"))
      (.fail none) "rid").map
        (fun o => (o.cacheWrites.map (fun kv => (kv.1, kv.2.backend_name)),
          (cacheGet (applyWrites [] o.cacheWrites) "u1").map
            (fun cEntry => cEntry.backend_name))) =
      some ([("u1", "ldap"), ("u1", "locdb")], some "locdb") := by
  decide

/-- Claim C7 amended: every cache write carries exactly the identity of a
configured backend whose Authenticate succeeded with claims and is keyed by the
stored claims ID, and every written key is retrievable from the replayed cache,
yielding the last write under that key — which again carries exactly the
identity of a succeeded backend.  Entries from earlier successes under the same
key within one request are overwritten. -/
theorem C7_amended_roundtrip (m : AuthPortal) (r : Request) (tok : TokenResult)
    (reqID : String) (o : Outcome) (ho : serveHTTP m r tok reqID = some o) :
    ∀ kv, kv ∈ o.cacheWrites →
      goodWrite reqID m.backends kv ∧
      ∃ e, cacheGet (applyWrites [] o.cacheWrites) kv.1 = some e ∧
        goodWrite reqID m.backends (kv.1, e) := by
  intro kv hkv
  refine ⟨serveHTTP_writes_good m r tok reqID o ho kv hkv, ?_⟩
  obtain ⟨e, he, hmem⟩ := lastWrite_mem o.cacheWrites kv hkv
  refine ⟨e, ?_, serveHTTP_writes_good m r tok reqID o ho (kv.1, e) hmem⟩
  rw [cacheGet_applyWrites kv.1 o.cacheWrites [], he]

/-- Claim C7 amended witness: two corp backends succeed with distinct IDs; the
first write (u1, ldap entry) is good and retrievable. -/
theorem C7_amended_witness :
    goodWrite "rid7" (fixtureConf [bCorpOK "ldap" "ldap" "u1", bCorpOK "locdb" "local" "u2"]).backends
      ("u1", { claims := { ID := "u1", Issuer := "https://h/auth/login", Address := "" },
               backend_name := "ldap", backend_realm := "corp",
               backend_method := "ldap" }) ∧
    ∃ e, cacheGet (applyWrites []
        [("u1", { claims := { ID := "u1", Issuer := "https://h/auth/login", Address := "" },
                  backend_name := "ldap", backend_realm := "corp",
                  backend_method := "ldap" }),
         ("u2", { claims := { ID := "u2", Issuer := "https://h/auth/login", Address := "" },
                  backend_name := "locdb", backend_realm := "corp",
                  backend_method := "local" })]) "u1" = some e ∧
      goodWrite "rid7" (fixtureConf [bCorpOK "ldap" "ldap" "u1", bCorpOK "locdb" "local" "u2"]).backends
        ("u1", e) :=
  C7_amended_roundtrip
    (fixtureConf [bCorpOK "ldap" "ldap" "u1", bCorpOK "locdb" "local" "u2"])
    (fixtureReq "POST" "/auth/login" none (.creds "corp")) (.fail none) "rid7"
    { action := .serveLogin,
      opts := { authenticated := true, auth_backend_found := true,
                auth_credentials_found := true, flow := some "login",
                status_code := some 200, message := none,
                user_claims := some { ID := "u2", Issuer := "https://h/auth/login",
                                      Address := "" },
                authorized := none },
      invoked := [0, 1],
      cacheWrites := [("u1",
        { claims := { ID := "u1", Issuer := "https://h/auth/login", Address := "" },
          backend_name := "ldap", backend_realm := "corp", backend_method := "ldap" }),
        ("u2",
        { claims := { ID := "u2", Issuer := "https://h/auth/login", Address := "" },
          backend_name := "locdb", backend_realm := "corp", backend_method := "local" })],
      cookie := none, location := none }
    (by decide)
    ("u1", { claims := { ID := "u1", Issuer := "https://h/auth/login", Address := "" },
             backend_name := "ldap", backend_realm := "corp", backend_method := "ldap" })
    (by decide)

/-- Claim C10: on a backend error the orchestrator unconditionally reads the
result's code entry as an integer.  In the delegated flow, if the first
(method, realm)-matching backend errs with a result lacking an integer code,
the run faults; in the interactive-login flow, if any realm-matching backend
errs with a result lacking an integer code, the run faults.  Totality of the
error handling therefore requires every erroring result to carry an integer
code. -/
theorem C10_error_code_read_total_only_with_code :
    (∀ (m : AuthPortal) (r : Request) (tok : TokenResult) (reqID : String)
       (j : Nat) (b : Backend) (e : String),
       tok ≠ .fail (some "[Token is expired]") →
       classify (urlPathOf m r) = .delegated →
       ¬ (splitSeg (urlPathOf m r)).length < 2 →
       m.backends.enum.find? (fun p =>
         decide (p.2.realm = (splitSeg (urlPathOf m r)).getD 1 "") &&
         decide (p.2.method = (splitSeg (urlPathOf m r)).getD 0 "")) = some (j, b) →
       b.err = some e → b.resp.code = none →
       serveHTTP m r tok reqID = none) ∧
    (∀ (m : AuthPortal) (r : Request) (e2 : Option String) (reqID realm : String)
       (i : Nat) (b : Backend) (e : String),
       e2 ≠ some "[Token is expired]" →
       classify (urlPathOf m r) = .login →
       r.creds = .creds realm →
       (r.httpMethod = "GET" → r.redirectParam = none) →
       (i, b) ∈ m.backends.enum → b.realm = realm →
       b.err = some e → b.resp.code = none →
       serveHTTP m r (.fail e2) reqID = none) := by
  constructor
  · intro m r tok reqID j b e hexp hcl hlen hfind herr hcode
    rw [serveHTTP_route m r tok reqID hexp,
        serveRouted_route_of_deleg m r reqID _ (classify_delegated hcl)]
    simp only [route, hcl]
    rw [if_neg hlen]
    exact delegLoop_first_match_err_no_code m r reqID _ _ _ _ m.backends.enum [] j b e
      hfind herr hcode
  · intro m r e2 reqID realm i b e hexp hcl hcred hq hmem hrealm herr hcode
    have hexp2 : (TokenResult.fail e2) ≠ TokenResult.fail (some "[Token is expired]") := by
      intro h
      injection h with h2
      exact hexp h2
    rw [serveHTTP_route m r _ reqID hexp2, serveRouted_route_of_no_query m r reqID _ hq]
    simp only [route, hcl, hcred]
    split
    · rename_i hcond
      simp [tokOpts, opts0] at hcond
    · rw [loginLoop_err_no_code m r reqID realm m.backends.enum _ _ _ i b e
        hmem hrealm herr hcode]

/-- Claim C10 witness: a corp backend erring with no integer code faults the
interactive-login flow. -/
theorem C10_witness :
    bCorpFailNoCode.resp.code = none ∧
    serveHTTP (fixtureConf [bCorpFailNoCode])
      (fixtureReq "POST" "/auth/login" none (.creds "corp"))
      (.fail none) "rid" = none :=
  ⟨by decide,
   C10_error_code_read_total_only_with_code.2 (fixtureConf [bCorpFailNoCode])
     (fixtureReq "POST" "/auth/login" none (.creds "corp")) none "rid" "corp"
     0 bCorpFailNoCode "denied" (by decide) (by decide) rfl (by decide) (by decide)
     (by decide) (by decide) (by decide)⟩
